import Mathlib

/-!
Verification of `ConfigHandler.py` (class `Config`): a single-file
configuration manager over JSON and TOML backends.

Shallow embedding:
* Python values that can appear in a configuration mapping are `Value`
  (strings, integers, booleans, `None`, lists, nested dicts).
* A Python `dict` is an insertion-ordered association list with string keys
  (`PyDict`); `dict.update` is `dictUpdate`.
* The store manages exactly one path (`self.file_path`), so the filesystem
  is modelled as `Option FileData`: `none` means the file is absent.
  `FileData` records what the file's bytes were produced by: a JSON dump of
  some value, a TOML dump of some table, or a truncation to zero bytes
  (opening with mode `w`/`wb` truncates before anything is written).
* Python exceptions are modelled by `PyErr`; every operation returns its
  result (`Except PyErr _`) together with the filesystem after the call,
  since an exception can escape after the file was already truncated.

Library models (these functions are third-party, not repository source):
* `json.dump` serializes every `Value` (all constructors are
  JSON-representable); reading that text back (`json.load`) recovers the
  value, and `json.load` fails on an empty file or on TOML text.
* `tomli_w.dumps` raises `TypeError` when the argument is not a dict or
  contains a TOML-unrepresentable value (e.g. `None` — TOML has no null);
  when it succeeds, its output is valid TOML that re-parses to the same
  table (`tomllibLoadsOfDump`).
* `tomllib.loads` on an empty file yields `{}`; on JSON text it fails.
* `os.remove` raises `FileNotFoundError` when the path is absent.
Directory creation (`os.makedirs`) has no observable effect on the single
modelled path and is not represented.
-/

/-- A Python value that can appear in a configuration mapping. -/
inductive Value where
  | str (s : String)
  | int (n : Int)
  | bool (b : Bool)
  | none
  | list (xs : List Value)
  | dict (d : List (String × Value))
deriving Repr

/-- A Python dict: insertion-ordered association list with string keys. -/
abbrev PyDict := List (String × Value)

/-- The Python exceptions the handler can raise, one constructor per raise
site (all `ValueError` sites are distinguished by their message in the
source). -/
inductive PyErr where
  | invalidFormat
  | invalidSerialization (text : PyDict)
  | invalidArgument
  | typeError
  | decodeError
  | attributeError
  | fileNotFound
deriving Repr

/-- What the bytes of the configuration file were produced by. -/
inductive FileData where
  | jsonDoc (v : Value)
  | tomlDoc (d : PyDict)
  | empty
deriving Repr

/-- The filesystem restricted to the store's single path. -/
abbrev FS := Option FileData

/-- First-match lookup in a `PyDict` (Python `d[k]` / `k in d`). -/
def dictLookup (k : String) : PyDict → Option Value
  | [] => Option.none
  | (k', v) :: rest => if k' = k then some v else dictLookup k rest

/-- Python `c.update(n)`: keys already in `c` keep their position and take
`n`'s value; keys only in `n` are appended in `n`'s order. -/
def dictUpdate (c n : PyDict) : PyDict :=
  c.map (fun kv =>
    match dictLookup kv.1 n with
    | some v => (kv.1, v)
    | Option.none => kv)
  ++ n.filter (fun kv => (dictLookup kv.1 c).isNone)

mutual
/-- Is the value representable in TOML by `tomli_w`? (`None` is not.) -/
def tomlSupported : Value → Bool
  | .str _ => true
  | .int _ => true
  | .bool _ => true
  | .none => false
  | .list xs => tomlSupportedList xs
  | .dict d => tomlSupportedDict d

/-- All values of a list are TOML-representable. -/
def tomlSupportedList : List Value → Bool
  | [] => true
  | v :: vs => tomlSupported v && tomlSupportedList vs

/-- All values of a table are TOML-representable. -/
def tomlSupportedDict : PyDict → Bool
  | [] => true
  | (_, v) :: rest => tomlSupported v && tomlSupportedDict rest
end

/-- Model of `tomli_w.dumps`: raises `TypeError` unless the argument is a
dict all of whose values are TOML-representable; its successful output is
the serialized text, identified with the table it prints. -/
def tomliWDumps : Value → Except PyErr PyDict
  | .dict d => if tomlSupportedDict d then .ok d else .error .typeError
  | _ => .error .typeError

/-- Model of `tomllib.loads` applied to text produced by a successful
`tomli_w.dumps`: the library emits valid TOML, so re-parsing recovers the
same table. -/
def tomllibLoadsOfDump (d : PyDict) : Except PyErr PyDict := .ok d

/-- Model of `json.load` on the file's bytes: recovers a JSON dump; fails
on an empty file and on TOML text (bare `key = value` lines or an empty
document are not valid JSON). -/
def jsonLoad : FileData → Except PyErr Value
  | .jsonDoc v => .ok v
  | .tomlDoc _ => .error .decodeError
  | .empty => .error .decodeError

/-- Model of `tomllib.loads` on the file's bytes: recovers a TOML dump, an
empty file parses as `{}`, and JSON text is not valid TOML. -/
def tomlLoads : FileData → Except PyErr Value
  | .tomlDoc d => .ok (.dict d)
  | .empty => .ok (.dict [])
  | .jsonDoc _ => .error .decodeError

/-- The `Config` instance's attributes after `__init__` finished. -/
structure Config where
  config_name : String
  file_type : String
  default_directory : String
  file_path : String
deriving Repr

/-- Model of Python `str.lower`, character by character (ASCII case
folding, which covers the accepted type names). -/
def strLower (s : String) : String := String.mk (s.data.map Char.toLower)

/-- Substring test on character lists: Python's `needle in hay`. -/
def strHasSub (hay needle : String) : Bool :=
  (List.range (hay.toList.length + 1)).any
    (fun i => needle.toList.isPrefixOf (hay.toList.drop i))

/-- The `__init__` format check:
`any(t.lower() in file_type.lower() for t in ['json', 'toml'])`. -/
def formatOk (file_type : String) : Bool :=
  ["json", "toml"].any (fun t => strHasSub (strLower file_type) (strLower t))

/-- `_check_file_type`: put a dot in front of the type if it has none. -/
def checkFileType (ft : String) : String :=
  if ft.toList.contains '.' then ft else "." ++ ft

/-- `add_content(contents)`: full overwrite. JSON: open `w` and
`json.dump`. TOML: open `wb` (this truncates the file before anything
else), `tomli_w.dumps`, re-parse with `tomllib.loads` raising
`ValueError` with the offending text when that fails, then write the
bytes. A `file_type` that is neither `.json` nor `.toml` falls through
both branches and nothing happens. -/
def addContent (cfg : Config) (contents : Value) (fs : FS) :
    Except PyErr Unit × FS :=
  if cfg.file_type = ".json" then
    (.ok (), some (.jsonDoc contents))
  else if cfg.file_type = ".toml" then
    match tomliWDumps contents with
    | .error e => (.error e, some .empty)
    | .ok d =>
      match tomllibLoadsOfDump d with
      | .error _ => (.error (.invalidSerialization d), some .empty)
      | .ok _ => (.ok (), some (.tomlDoc d))
  else
    (.ok (), fs)

/-- `get_content()`: `{}` if the file does not exist; otherwise parse
according to `file_type`. A `file_type` that matches neither branch makes
the Python function fall through and return `None`. -/
def getContent (cfg : Config) (fs : FS) : Except PyErr Value × FS :=
  match fs with
  | Option.none => (.ok (.dict []), fs)
  | some fd =>
    if cfg.file_type = ".json" then
      (jsonLoad fd, fs)
    else if cfg.file_type = ".toml" then
      (tomlLoads fd, fs)
    else
      (.ok .none, fs)

/-- `update_content(new_values)`: `ValueError` if `new_values` is not a
dict; read the current content; open the path with mode `w` (truncating
it); then per branch merge with `dict.update` and write (JSON directly
with `json.dump`, TOML by delegating to `add_content`). Calling
`.update` on a non-dict read result raises `AttributeError`. -/
def updateContent (cfg : Config) (new_values : Value) (fs : FS) :
    Except PyErr Unit × FS :=
  match new_values with
  | .dict n =>
    match getContent cfg fs with
    | (.error e, fs') => (.error e, fs')
    | (.ok fileContents, _) =>
      -- `open(self.file_path, 'w')` truncates the file here.
      let fsT : FS := some .empty
      if cfg.file_type = ".json" then
        match fileContents with
        | .dict c => (.ok (), some (.jsonDoc (.dict (dictUpdate c n))))
        | _ => (.error .attributeError, fsT)
      else if cfg.file_type = ".toml" then
        match fileContents with
        | .dict c => addContent cfg (.dict (dictUpdate c n)) fsT
        | _ => (.error .attributeError, fsT)
      else
        (.ok (), fsT)
  | _ => (.error .invalidArgument, fs)

/-- `destroy_config()`: `os.remove(self.file_path)`. -/
def destroyConfig (_cfg : Config) (fs : FS) : Except PyErr Unit × FS :=
  match fs with
  | Option.none => (.error .fileNotFound, fs)
  | some _ => (.ok (), Option.none)

/-- The tail of `__init__` (lines 59-60 of the source): when the path
does not exist, write `{}` through `add_content`; an exception from that
call escapes the constructor. -/
def initFile (cfg : Config) (fs : FS) : Except PyErr Config × FS :=
  match fs with
  | some _ => (.ok cfg, fs)
  | Option.none =>
    match addContent cfg (.dict []) Option.none with
    | (.ok _, fs') => (.ok cfg, fs')
    | (.error e, fs') => (.error e, fs')

/-- `__init__(file_name, file_type, default_directory)`: resolve the
directory (Python `or`, so the empty string also falls back to the
working directory), validate the format by case-insensitive substring
match, normalize the extension, derive the path, and write `{}` through
`add_content` when the path does not exist. -/
def Config.init (file_name file_type : String)
    (default_directory : Option String) (cwd : String) (fs : FS) :
    Except PyErr Config × FS :=
  let dir := match default_directory with
    | some d => if d = "" then cwd else d
    | Option.none => cwd
  if !formatOk file_type then
    (.error .invalidFormat, fs)
  else
    let ft := checkFileType file_type
    initFile ⟨file_name, ft, dir, dir ++ "/" ++ file_name ++ ft⟩ fs

/-- A sample JSON-backed store, as produced by
`Config('test', '.json', 'dir')`. -/
def jsonCfg : Config := ⟨"test", ".json", "dir", "dir/test.json"⟩

/-- A sample TOML-backed store, as produced by
`Config('test', '.toml', 'dir')`. -/
def tomlCfg : Config := ⟨"test", ".toml", "dir", "dir/test.toml"⟩

/-- Is the value a Python dict? (`isinstance(new_values, dict)`). -/
def Value.isDict : Value → Bool
  | .dict _ => true
  | _ => false

/-- Lookup distributes over append: the first list wins. -/
theorem dictLookup_append (k : String) (a b : PyDict) :
    dictLookup k (a ++ b) =
      match dictLookup k a with
      | some v => some v
      | Option.none => dictLookup k b := by
  induction a with
  | nil => rfl
  | cons hd tl ih =>
    obtain ⟨k', v⟩ := hd
    by_cases h : k' = k <;> simp [dictLookup, h, ih]

/-- Lookup in the `dict.update` image of the old entries: an old key keeps
its place and takes the new value when one exists. -/
theorem dictLookup_updatedOld (k : String) (c n : PyDict) :
    dictLookup k (c.map (fun kv =>
        match dictLookup kv.1 n with
        | some v => (kv.1, v)
        | Option.none => kv)) =
      match dictLookup k c with
      | some v =>
        some (match dictLookup k n with
          | some w => w
          | Option.none => v)
      | Option.none => Option.none := by
  induction c with
  | nil => rfl
  | cons hd tl ih =>
    obtain ⟨k', v⟩ := hd
    by_cases h : k' = k
    · subst h
      cases hn : dictLookup k' n <;> simp [dictLookup, hn]
    · cases hn : dictLookup k' n <;> simp [dictLookup, h, hn, ih]

/-- Lookup among the appended fresh entries: present exactly when the key
was absent from the old content. -/
theorem dictLookup_freshNew (k : String) (c n : PyDict) :
    dictLookup k (n.filter (fun kv => (dictLookup kv.1 c).isNone)) =
      match dictLookup k c with
      | some _ => Option.none
      | Option.none => dictLookup k n := by
  induction n with
  | nil => cases dictLookup k c <;> rfl
  | cons hd tl ih =>
    obtain ⟨k', v⟩ := hd
    by_cases h : k' = k
    · subst h
      cases hc : dictLookup k' c <;>
        simp [List.filter, dictLookup, hc, ih]
    · cases hc : dictLookup k' c <;>
        cases hc2 : (dictLookup k' c).isNone <;>
        simp_all [List.filter, dictLookup, h, ih]

/-- The key-wise law of Python's `dict.update`: the updated dict maps each
key to the new value when the new dict has one, and to the old value
otherwise. -/
theorem dictUpdate_lookup (c n : PyDict) (k : String) :
    dictLookup k (dictUpdate c n) =
      match dictLookup k n with
      | some v => some v
      | Option.none => dictLookup k c := by
  unfold dictUpdate
  rw [dictLookup_append, dictLookup_updatedOld, dictLookup_freshNew]
  cases h1 : dictLookup k c <;> cases h2 : dictLookup k n <;> simp [h1, h2]

/-- Is the construction result a handle (no exception)? -/
def isOkB {ε α : Type} : Except ε α → Bool
  | .ok _ => true
  | .error _ => false

/-- C1: round-trip — writing a mapping whose values are representable in
the chosen format with `add_content` and then reading the same store with
`get_content` succeeds and returns that mapping, for both the JSON and
the TOML backend. -/
theorem add_get_roundtrip (cfg : Config) (fs : FS) (m : PyDict)
    (hfmt : cfg.file_type = ".json" ∨
      (cfg.file_type = ".toml" ∧ tomlSupportedDict m = true)) :
    (addContent cfg (.dict m) fs).1 = .ok () ∧
    (getContent cfg (addContent cfg (.dict m) fs).2).1 = .ok (.dict m) := by
  rcases hfmt with h | ⟨h, hm⟩
  · simp [addContent, getContent, jsonLoad, h]
  · simp [addContent, getContent, tomliWDumps, tomllibLoadsOfDump,
      tomlLoads, h, hm]

/-- Witness: round-trip of `{"a": 1}` on a concrete JSON store. -/
theorem add_get_roundtrip_witness :
    (addContent jsonCfg (.dict [("a", Value.int 1)]) Option.none).1 =
      .ok () ∧
    (getContent jsonCfg
      (addContent jsonCfg (.dict [("a", Value.int 1)]) Option.none).2).1 =
      .ok (.dict [("a", Value.int 1)]) :=
  add_get_roundtrip jsonCfg Option.none [("a", Value.int 1)] (Or.inl rfl)

/-- C5: construction on an already existing file leaves its content
unchanged, whatever the arguments (the empty-mapping write happens only
when the file is absent). -/
theorem config_init_preserves_existing (file_name ft : String)
    (dd : Option String) (cwd : String) (f : FileData) :
    (Config.init file_name ft dd cwd (some f)).2 = some f := by
  unfold Config.init
  cases hf : formatOk ft <;> simp [hf, initFile]

/-- C6: when the file is absent `get_content` returns `{}` without failing
and without recreating the file; in particular after `destroy_config` on
an existing file the path is gone and a fresh read returns `{}`. -/
theorem get_content_absent (cfg : Config) (f : FileData) :
    getContent cfg Option.none = (.ok (.dict []), Option.none) ∧
    destroyConfig cfg (some f) = (.ok (), Option.none) ∧
    getContent cfg (destroyConfig cfg (some f)).2 =
      (.ok (.dict []), Option.none) :=
  ⟨rfl, rfl, rfl⟩

/-- C9: `destroy_config` removes the file when it exists and fails with
`FileNotFoundError` exactly when it does not. -/
theorem destroy_config_spec (cfg : Config) (f : FileData) :
    destroyConfig cfg (some f) = (.ok (), Option.none) ∧
    destroyConfig cfg Option.none =
      (.error .fileNotFound, Option.none) :=
  ⟨rfl, rfl⟩

/-- C2: `update_content` is a shallow key-wise merge on both backends:
the stored content maps each key to the new value when the new mapping
has one (overwriting on collision, nested values replaced wholesale) and
to the old value otherwise; and the spec's two example sequences hold on
an initially empty store. -/
theorem update_content_shallow_merge (cfg : Config) (c n : PyDict) :
    (cfg.file_type = ".json" →
      updateContent cfg (.dict n) (some (.jsonDoc (.dict c))) =
        (.ok (), some (.jsonDoc (.dict (dictUpdate c n))))) ∧
    (cfg.file_type = ".toml" → tomlSupportedDict (dictUpdate c n) = true →
      updateContent cfg (.dict n) (some (.tomlDoc c)) =
        (.ok (), some (.tomlDoc (dictUpdate c n)))) ∧
    (∀ k, dictLookup k (dictUpdate c n) =
      match dictLookup k n with
      | some v => some v
      | Option.none => dictLookup k c) ∧
    (getContent jsonCfg
      (updateContent jsonCfg (.dict [("b", Value.int 2)])
        (updateContent jsonCfg (.dict [("a", Value.int 1)])
          (some (.jsonDoc (.dict [])))).2).2).1 =
      .ok (.dict [("a", Value.int 1), ("b", Value.int 2)]) ∧
    (getContent jsonCfg
      (updateContent jsonCfg (.dict [("a", Value.int 2)])
        (updateContent jsonCfg (.dict [("a", Value.int 1)])
          (some (.jsonDoc (.dict [])))).2).2).1 =
      .ok (.dict [("a", Value.int 2)]) := by
  refine ⟨?_, ?_, fun k => dictUpdate_lookup c n k, rfl, rfl⟩
  · intro h
    simp [updateContent, getContent, jsonLoad, h]
  · intro h hm
    simp [updateContent, getContent, tomlLoads, addContent, tomliWDumps,
      tomllibLoadsOfDump, h, hm]

/-- Witness: merging `{"a": 2}` over `{"a": 1}` on a concrete JSON store
overwrites the colliding key. -/
theorem update_content_shallow_merge_witness :
    updateContent jsonCfg (.dict [("a", Value.int 2)])
      (some (.jsonDoc (.dict [("a", Value.int 1)]))) =
      (.ok (), some (.jsonDoc (.dict
        (dictUpdate [("a", Value.int 1)] [("a", Value.int 2)])))) :=
  (update_content_shallow_merge jsonCfg
    [("a", Value.int 1)] [("a", Value.int 2)]).1 rfl

/-- C3 counterexample: on a TOML store, writing a mapping holding a value
TOML cannot represent (`None`) fails with the serializer's `TypeError`,
not with the `InvalidSerialization` `ValueError`, and the previous file
content has already been truncated away. -/
theorem add_content_toml_none_typeError :
    addContent tomlCfg (.dict [("a", Value.none)])
      (some (.tomlDoc [("x", Value.int 1)])) =
      (.error .typeError, some .empty) := rfl

/-- C3 (amended): on a TOML store `add_content` propagates the
serializer's error (a `TypeError` for unsupported value types) when
`tomli_w.dumps` fails; when serialization succeeds, re-parsing the
serialized text always succeeds, so `InvalidSerialization` is not raised
and the dumped table is committed — either way nothing syntactically
invalid is ever written. -/
theorem add_content_toml_validation (cfg : Config) (contents : Value)
    (fs : FS) (h : cfg.file_type = ".toml") :
    (∀ e, tomliWDumps contents = .error e →
      addContent cfg contents fs = (.error e, some .empty)) ∧
    (∀ d, tomliWDumps contents = .ok d →
      tomllibLoadsOfDump d = .ok d ∧
      addContent cfg contents fs = (.ok (), some (.tomlDoc d))) := by
  constructor
  · intro e he
    simp [addContent, h, he]
  · intro d hd
    exact ⟨rfl, by simp [addContent, tomllibLoadsOfDump, h, hd]⟩

/-- Witness: the amended C3 statement at a concrete TOML store writing
`{"a": None}` to an absent file. -/
theorem add_content_toml_validation_witness :
    addContent tomlCfg (.dict [("a", Value.none)]) Option.none =
      (.error .typeError, some .empty) :=
  (add_content_toml_validation tomlCfg (.dict [("a", Value.none)])
    Option.none rfl).1 .typeError rfl

/-- `add_content` with the empty mapping never raises (the empty table is
serializable in both formats; an unrecognized extension writes nothing). -/
theorem addContent_empty_ok (cfg : Config) (fs : FS) :
    (addContent cfg (Value.dict []) fs).1 = .ok () := by
  unfold addContent
  by_cases h1 : cfg.file_type = ".json" <;>
    by_cases h2 : cfg.file_type = ".toml" <;>
    simp [h1, h2, tomliWDumps, tomllibLoadsOfDump, tomlSupportedDict]

/-- Restatement of the previous lemma for a destructured call. -/
theorem addContent_empty_ok' (cfg : Config) (fs fs' : FS)
    (r : Except PyErr Unit)
    (h : addContent cfg (Value.dict []) fs = (r, fs')) : r = .ok () := by
  have hr := addContent_empty_ok cfg fs
  rw [h] at hr
  exact hr

/-- The initialization tail never reports `InvalidFormat`: the
`add_content({})` call cannot raise it. -/
theorem initFile_ne_invalidFormat (cfg : Config) (fs : FS) :
    (initFile cfg fs).1 ≠ .error .invalidFormat := by
  cases fs with
  | some f => simp [initFile]
  | none =>
    simp only [initFile]
    split
    · simp
    · rename_i e fs' heq
      have hok := addContent_empty_ok' _ _ _ _ heq
      simp at hok

/-- C8: construction validates the format by a case-insensitive substring
match against json/toml and fails with `InvalidFormat` exactly when
neither matches; `"xml"` matches neither. -/
theorem init_format_validation (file_name ft : String) (dd : Option String)
    (cwd : String) (fs : FS) :
    (formatOk ft = false →
      Config.init file_name ft dd cwd fs = (.error .invalidFormat, fs)) ∧
    (formatOk ft = true →
      (Config.init file_name ft dd cwd fs).1 ≠ .error .invalidFormat) ∧
    formatOk "xml" = false := by
  refine ⟨?_, ?_, by decide⟩
  · intro h
    simp [Config.init, h]
  · intro h
    unfold Config.init
    rw [h]
    simp only [Bool.not_true, Bool.false_eq_true, if_false]
    exact initFile_ne_invalidFormat _ fs

/-- Witness: constructing with format `"xml"` fails with `InvalidFormat`
and leaves the filesystem untouched. -/
theorem init_format_validation_witness :
    Config.init "test" "xml" Option.none "dir" Option.none =
      (.error .invalidFormat, Option.none) :=
  (init_format_validation "test" "xml" Option.none "dir"
    Option.none).1 (by decide)

/-- C10: on a TOML store, `update_content` truncates the file (mode `w`)
before the merged content is serialized or validated, so when
serialization of the merged table fails the previous content is lost and
the file is left empty — the merge is not atomic on error. -/
theorem update_toml_truncates_on_error (cfg : Config) (c n : PyDict)
    (e : PyErr) (h : cfg.file_type = ".toml")
    (hs : tomliWDumps (.dict (dictUpdate c n)) = .error e) :
    updateContent cfg (.dict n) (some (.tomlDoc c)) =
      (.error e, some .empty) := by
  simp [updateContent, getContent, tomlLoads, addContent, h, hs]

/-- Witness: merging `{"a": None}` into a TOML file holding
`{"x": "v"}` fails and leaves the file empty. -/
theorem update_toml_truncates_on_error_witness :
    updateContent tomlCfg (.dict [("a", Value.none)])
      (some (.tomlDoc [("x", Value.str "v")])) =
      (.error .typeError, some .empty) :=
  update_toml_truncates_on_error tomlCfg [("x", Value.str "v")]
    [("a", Value.none)] .typeError rfl rfl

/-- A file type whose normalization is dot-prefixed `s` was either already
`.s` or was the bare `s`. -/
theorem checkFileType_eq_cases (ft s : String)
    (h : checkFileType ft = "." ++ s) : ft = "." ++ s ∨ ft = s := by
  unfold checkFileType at h
  split at h
  · exact Or.inl h
  · right
    have h2 := congrArg String.data h
    simp only [String.data_append] at h2
    have h3 : ft.data = s.data := by
      have h4 : ('.' : Char) :: ft.data = '.' :: s.data := h2
      simpa using h4
    cases ft
    cases s
    exact congrArg String.mk h3

/-- The initialization tail, when the stored extension is exactly `.json`
or `.toml`: construction succeeds, the file exists afterwards, and an
absent file is initialized with the empty mapping. -/
theorem initFile_creates (cfg : Config) (fs : FS)
    (h : cfg.file_type = ".json" ∨ cfg.file_type = ".toml") :
    isOkB (initFile cfg fs).1 = true ∧
    (initFile cfg fs).2 ≠ Option.none ∧
    (fs = Option.none →
      (initFile cfg fs).2 = some (.jsonDoc (.dict [])) ∨
      (initFile cfg fs).2 = some (.tomlDoc [])) := by
  cases fs with
  | some f => simp [initFile, isOkB]
  | none =>
    rcases h with h | h <;>
      simp [initFile, addContent, tomliWDumps, tomllibLoadsOfDump,
        tomlSupportedDict, isOkB, h]

/-- C4 counterexample: the format `"JSON"` passes the case-insensitive
validation but normalizes to `.JSON`, which matches neither write branch
of `add_content`, so construction succeeds while creating no file. -/
theorem config_init_upperJSON_no_file :
    (Config.init "test" "JSON" Option.none "dir" Option.none).1 =
      .ok ⟨"test", ".JSON", "dir", "dir/test.JSON"⟩ ∧
    (Config.init "test" "JSON" Option.none "dir" Option.none).2 =
      Option.none :=
  ⟨rfl, rfl⟩

/-- C4 (amended): for every name, directory and format string whose
normalized extension is exactly `.json` or `.toml`, construction succeeds
and the file at the derived path exists afterwards; if it was absent it
is initialized with the empty mapping in the chosen format. (For other
accepted format strings such as `"JSON"` the write is skipped and no
file is created — see the counterexample.) -/
theorem config_init_creates_file (file_name ft : String)
    (dd : Option String) (cwd : String) (fs : FS)
    (h : checkFileType ft = ".json" ∨ checkFileType ft = ".toml") :
    isOkB (Config.init file_name ft dd cwd fs).1 = true ∧
    (Config.init file_name ft dd cwd fs).2 ≠ Option.none ∧
    (fs = Option.none →
      (Config.init file_name ft dd cwd fs).2 =
        some (.jsonDoc (.dict [])) ∨
      (Config.init file_name ft dd cwd fs).2 = some (.tomlDoc [])) := by
  have hok : formatOk ft = true := by
    rcases h with h | h
    · rcases checkFileType_eq_cases ft "json" h with rfl | rfl <;> decide
    · rcases checkFileType_eq_cases ft "toml" h with rfl | rfl <;> decide
  unfold Config.init
  rw [hok]
  simp only [Bool.not_true, Bool.false_eq_true, if_false]
  exact initFile_creates _ fs h

/-- Witness: constructing a JSON store on an absent path creates the file
holding the empty mapping. -/
theorem config_init_creates_file_witness :
    isOkB (Config.init "test" "json" Option.none "dir" Option.none).1 =
      true ∧
    (Config.init "test" "json" Option.none "dir" Option.none).2 ≠
      Option.none ∧
    ((Config.init "test" "json" Option.none "dir" Option.none).2 =
        some (.jsonDoc (.dict [])) ∨
      (Config.init "test" "json" Option.none "dir" Option.none).2 =
        some (.tomlDoc [])) := by
  obtain ⟨h1, h2, h3⟩ := config_init_creates_file "test" "json"
    Option.none "dir" Option.none (Or.inl (by decide))
  exact ⟨h1, h2, h3 rfl⟩

/-- `tomli_w.dumps` can only fail with `TypeError`. -/
theorem tomliWDumps_error (v : Value) (e : PyErr)
    (h : tomliWDumps v = .error e) : e = .typeError := by
  cases v <;> try (simp [tomliWDumps] at h; exact h.symm)
  rename_i d
  simp only [tomliWDumps] at h
  by_cases hs : tomlSupportedDict d = true
  · rw [if_pos hs] at h
    exact Except.noConfusion h
  · rw [if_neg hs] at h
    injection h with h3
    exact h3.symm

/-- `get_content` can only fail with a deserialization error. -/
theorem getContent_error (cfg : Config) (fs : FS) (e : PyErr)
    (h : (getContent cfg fs).1 = .error e) : e = .decodeError := by
  cases fs with
  | none => simp [getContent] at h
  | some fd =>
    by_cases h1 : cfg.file_type = ".json"
    · cases fd <;> simp [getContent, jsonLoad, h1] at h <;> exact h.symm
    · by_cases h2 : cfg.file_type = ".toml"
      · cases fd <;> simp [getContent, tomlLoads, h1, h2] at h
        exact h.symm
      · simp [getContent, h1, h2] at h

/-- `add_content` never raises the merge argument `ValueError`. -/
theorem addContent_ne_invalidArgument (cfg : Config) (v : Value)
    (fs : FS) : (addContent cfg v fs).1 ≠ .error .invalidArgument := by
  unfold addContent
  by_cases h1 : cfg.file_type = ".json"
  · rw [if_pos h1]; simp
  · rw [if_neg h1]
    by_cases h2 : cfg.file_type = ".toml"
    · rw [if_pos h2]
      cases hd : tomliWDumps v with
      | error e =>
        have he := tomliWDumps_error v e hd
        subst he
        simp
      | ok d =>
        simp [tomllibLoadsOfDump]
    · rw [if_neg h2]; simp

/-- C7: `update_content` fails with the `InvalidArgument` `ValueError`,
before any I/O and leaving the file unchanged, exactly when its argument
is not a dict; for a dict argument that error is never raised. -/
theorem update_content_requires_dict (cfg : Config) (v : Value)
    (fs : FS) :
    (v.isDict = false →
      updateContent cfg v fs = (.error .invalidArgument, fs)) ∧
    (v.isDict = true →
      (updateContent cfg v fs).1 ≠ .error .invalidArgument) := by
  constructor
  · intro h
    cases v <;> simp_all [Value.isDict, updateContent]
  · intro h
    cases v <;> simp [Value.isDict] at h
    rename_i n
    simp only [updateContent]
    rcases hg : getContent cfg fs with ⟨r, fs'⟩
    cases r with
    | error e =>
      have he := getContent_error cfg fs e (by rw [hg])
      subst he
      simp
    | ok fc =>
      by_cases h1 : cfg.file_type = ".json"
      · cases fc <;> simp [h1]
      · by_cases h2 : cfg.file_type = ".toml"
        · cases fc <;> simp [h1, h2]
          rename_i c
          exact addContent_ne_invalidArgument cfg _ _
        · simp [h1, h2]

/-- Witness: the spec's `Merge([1,2,3])` on a concrete JSON store fails
with `InvalidArgument` and leaves the file unchanged. -/
theorem update_content_requires_dict_witness :
    updateContent jsonCfg (.list [Value.int 1, Value.int 2, Value.int 3])
      (some (.jsonDoc (.dict []))) =
      (.error .invalidArgument, some (.jsonDoc (.dict []))) :=
  (update_content_requires_dict jsonCfg
    (.list [Value.int 1, Value.int 2, Value.int 3])
    (some (.jsonDoc (.dict [])))).1 rfl
